import Mathlib

/-!
# Verification of QMapControl GeometryPoint

Shallow embedding of `src/QMapControl/src/QMapControl/GeometryPoint.cpp`
(class `qmapcontrol::GeometryPoint`) together with the parts of the
repository it depends on that are not shipped under `src/` (the `Geometry`
base class, the `Projection` singleton and `calculateTopLeftPoint`), which
are modelled from the specification.

Real-valued quantities (`qreal`, `QSizeF`, `QPointF`) are embedded as
rational numbers; every arithmetic operation the code performs on them
(`/`, `*`, `+`, `-`, `std::pow(2.0, n)` for integer `n`, `std::min`,
`std::max`) is exact on the dyadic values exercised here, so the rational
model agrees with the double-precision source on all inputs used below.
-/

namespace qmapcontrol

/-- A longitude/latitude world coordinate (`PointWorldCoord`). -/
structure PointWorldCoord where
  x : ℚ
  y : ℚ
deriving DecidableEq, Repr

/-- A pixel-space point at some zoom (`PointWorldPx`). -/
structure PointWorldPx where
  x : ℚ
  y : ℚ
deriving DecidableEq, Repr

/-- An integer size (`QSize`), as returned by `QPixmap::size()`. -/
structure QSize where
  width : ℤ
  height : ℤ
deriving DecidableEq, Repr

/-- `QSize::isEmpty()`: true iff width or height is less than 1. -/
def QSize.isEmpty (s : QSize) : Bool :=
  s.width < 1 || s.height < 1

/-- A real-valued size (`QSizeF`). -/
structure QSizeF where
  width : ℚ
  height : ℚ
deriving DecidableEq, Repr

/-- A raster image (`QPixmap`); the embedding only needs its size. -/
structure QPixmap where
  size : QSize
deriving DecidableEq, Repr

/-- A drawing pen (`QPen`); opaque to the embedded code, carried through
to `painter->setPen` calls unchanged. -/
structure QPen where
  style : ℤ
deriving DecidableEq, Repr

/-- The nine alignment choices (`AlignmentType`). -/
inductive AlignmentType where
  | TopLeft
  | TopMiddle
  | TopRight
  | LeftMiddle
  | Middle
  | RightMiddle
  | BottomLeft
  | BottomMiddle
  | BottomRight
deriving DecidableEq, Repr

/-- The state of a `GeometryPoint`, flattening in the `Geometry` base
fields the embedded member functions read (`m_zoom_minimum`,
`m_zoom_maximum`, the pen, and the displayed-metadata configuration).
`pixmap = none` embeds a null `std::shared_ptr<QPixmap>`;
`metadata_displayed_value = none` embeds
`getMetadata(m_metadata_displayed_key).isNull()`. -/
structure GeometryPoint where
  zoom_minimum : ℤ
  zoom_maximum : ℤ
  pen : QPen
  metadata_displayed_zoom_minimum : ℤ
  metadata_displayed_value : Option String
  metadata_displayed_alignment_offset_px : ℚ
  point_coord : PointWorldCoord
  pixmap : Option QPixmap
  alignment_type : AlignmentType
  base_zoom : ℤ
  base_size_px : QSize
  draw_minimum_px : QSizeF
  draw_maximum_px : QSizeF
deriving DecidableEq, Repr

/-- Modelled from the spec: `Geometry::isVisible` is declared in the
`Geometry` base class, which is not under `src/`. The spec states a
geometry is visible at zoom `z` iff `zoom_minimum ≤ z ≤ zoom_maximum`
(inclusive range). -/
def isVisible (g : GeometryPoint) (zoom : ℤ) : Bool :=
  decide (g.zoom_minimum ≤ zoom ∧ zoom ≤ g.zoom_maximum)

/-- `GeometryPoint::calculateGeometrySizePx` (GeometryPoint.cpp lines
289–342): default to a `(1.0, 1.0)` point footprint; with a non-null,
non-empty pixmap take the pixmap size; with `m_base_zoom > 0` scale
`m_base_size_px` by `2^(m_base_zoom - controller_zoom)` and apply the
configured minimum/maximum clamps component-wise. -/
def calculateGeometrySizePx (g : GeometryPoint) (controller_zoom : ℤ) : QSizeF :=
  match g.pixmap with
  | none => ⟨1, 1⟩
  | some pix =>
    if pix.size.isEmpty then ⟨1, 1⟩
    else if g.base_zoom > 0 then
      let zoom_difference : ℤ := g.base_zoom - controller_zoom
      let height0 : ℚ := (g.base_size_px.height : ℚ) / (2 : ℚ) ^ zoom_difference
      let width0 : ℚ := (g.base_size_px.width : ℚ) / (2 : ℚ) ^ zoom_difference
      let height1 : ℚ :=
        if g.draw_minimum_px.height > -1 then max height0 g.draw_minimum_px.height else height0
      let width1 : ℚ :=
        if g.draw_minimum_px.width > -1 then max width0 g.draw_minimum_px.width else width0
      let height2 : ℚ :=
        if g.draw_maximum_px.height > -1 then min height1 g.draw_maximum_px.height else height1
      let width2 : ℚ :=
        if g.draw_maximum_px.width > -1 then min width1 g.draw_maximum_px.width else width1
      ⟨width2, height2⟩
    else ⟨(pix.size.width : ℚ), (pix.size.height : ℚ)⟩

/-- The notification signals the embedded member functions emit:
`requestRedraw()`, `positionChanged(this)` and `geometryClicked(this)`.
The two signals that carry `this` carry the geometry's state at emission
time. -/
inductive Event where
  | requestRedraw
  | positionChanged (g : GeometryPoint)
  | geometryClicked (g : GeometryPoint)
deriving DecidableEq, Repr

/-- `GeometryPoint::coord` (lines 62–66). -/
def coord (g : GeometryPoint) : PointWorldCoord :=
  g.point_coord

/-- `GeometryPoint::setCoord` (lines 68–82): update and emit
`requestRedraw` then `positionChanged(this)` only when the new point
differs from the current one. `PointWorldCoord::operator!=` is declared
in repo code not under `src/`; modelled from the spec as exact
inequality on the two components. -/
def setCoord (g : GeometryPoint) (point : PointWorldCoord) : GeometryPoint × List Event :=
  if g.point_coord ≠ point then
    let g1 := { g with point_coord := point }
    (g1, [Event.requestRedraw, Event.positionChanged g1])
  else
    (g, [])

/-- `GeometryPoint::setPixmap(const std::shared_ptr<QPixmap>&)` (lines
90–104): store the (possibly null) pixmap, recapture `m_base_size_px`
from it when it is non-null, and emit `requestRedraw`. -/
def setPixmap (g : GeometryPoint) (pixmap : Option QPixmap) : GeometryPoint × List Event :=
  let g1 := { g with pixmap := pixmap }
  let g2 :=
    match pixmap with
    | some p => { g1 with base_size_px := p.size }
    | none => g1
  (g2, [Event.requestRedraw])

/-- `GeometryPoint::setAlignmentType` (lines 154–158): plain field
assignment, no signal emitted. -/
def setAlignmentType (g : GeometryPoint) (alignment_type : AlignmentType) :
    GeometryPoint × List Event :=
  ({ g with alignment_type := alignment_type }, [])

/-- `GeometryPoint::setBaseZoom` (lines 160–164): plain field
assignment, no signal emitted. -/
def setBaseZoom (g : GeometryPoint) (zoom : ℤ) : GeometryPoint × List Event :=
  ({ g with base_zoom := zoom }, [])

/-- `GeometryPoint::setDrawMinimumPx` (lines 166–170): plain field
assignment, no signal emitted. -/
def setDrawMinimumPx (g : GeometryPoint) (size_px : QSizeF) : GeometryPoint × List Event :=
  ({ g with draw_minimum_px := size_px }, [])

/-- `GeometryPoint::setDrawMaximumPx` (lines 172–176): plain field
assignment, no signal emitted. -/
def setDrawMaximumPx (g : GeometryPoint) (size_px : QSizeF) : GeometryPoint × List Event :=
  ({ g with draw_maximum_px := size_px }, [])

/-- Modelled from the spec: the `projection::get()` singleton's two
conversions (`toPointWorldPx`, `toPointWorldCoord`) live in
`Projection.h/.cpp`, not under `src/`. The spec keeps the concrete
slippy-map formula external and only requires the two directed
conversions, so the embedding carries them as an abstract pair of
functions. -/
structure Projection where
  toPointWorldPx : PointWorldCoord → ℤ → PointWorldPx
  toPointWorldCoord : PointWorldPx → ℤ → PointWorldCoord

/-- Modelled from the spec: the alignment fraction table of §4.3 —
`calculateTopLeftPoint` is declared in repo code not under `src/`. Each
alignment maps to `(fx, fy) ∈ {0, 1/2, 1}²`, with `TopLeft = (0,0)`,
`Middle = (1/2,1/2)`, `BottomRight = (1,1)` and the remaining six
interpolating per component. -/
def alignmentFraction : AlignmentType → ℚ × ℚ
  | .TopLeft => (0, 0)
  | .TopMiddle => (1/2, 0)
  | .TopRight => (1, 0)
  | .LeftMiddle => (0, 1/2)
  | .Middle => (1/2, 1/2)
  | .RightMiddle => (1, 1/2)
  | .BottomLeft => (0, 1)
  | .BottomMiddle => (1/2, 1)
  | .BottomRight => (1, 1)

/-- Modelled from the spec: `calculateTopLeftPoint(anchorPx, alignment,
size)` adds the offset `(-size.width * fx, -size.height * fy)` to the
anchor pixel. -/
def calculateTopLeftPoint (point_px : PointWorldPx) (alignment_type : AlignmentType)
    (geometry_size_px : QSizeF) : PointWorldPx :=
  let f := alignmentFraction alignment_type
  ⟨point_px.x - geometry_size_px.width * f.1, point_px.y - geometry_size_px.height * f.2⟩

/-- A pixel-space rectangle (`QRectF`) given by top-left corner and
size, as constructed by `QRectF(topLeftPoint, size)`. -/
structure QRectF where
  left : ℚ
  top : ℚ
  width : ℚ
  height : ℚ
deriving DecidableEq, Repr

/-- `QRectF::topRight()`. -/
def QRectF.topRight (r : QRectF) : PointWorldPx :=
  ⟨r.left + r.width, r.top⟩

/-- The world-coordinate rectangle `boundingBox` returns, built by the
`QRectF(topLeft, bottomRight)` two-point constructor. -/
structure QRectCoord where
  top_left : PointWorldCoord
  bottom_right : PointWorldCoord
deriving DecidableEq, Repr

/-- `GeometryPoint::boundingBox` (lines 178–194): anchor pixel, sized
footprint, aligned top-left, derived bottom-right, both corners
converted back to world coordinates. -/
def boundingBox (g : GeometryPoint) (proj : Projection) (controller_zoom : ℤ) : QRectCoord :=
  let point_px := proj.toPointWorldPx g.point_coord controller_zoom
  let object_size_px := calculateGeometrySizePx g controller_zoom
  let top_left_point_px := calculateTopLeftPoint point_px g.alignment_type object_size_px
  let bottom_right_point_px : PointWorldPx :=
    ⟨top_left_point_px.x + object_size_px.width, top_left_point_px.y + object_size_px.height⟩
  ⟨proj.toPointWorldCoord top_left_point_px controller_zoom,
    proj.toPointWorldCoord bottom_right_point_px controller_zoom⟩

/-- `GeometryPoint::touches` (lines 196–222). The polygon area is a
`QGraphicsItem` (external Qt type); the embedding carries the one
capability the code consumes, its `contains` predicate on pixel
points. -/
def touches (g : GeometryPoint) (proj : Projection) (area_px : PointWorldPx → Bool)
    (controller_zoom : ℤ) : Bool × List Event :=
  if isVisible g controller_zoom then
    let point_px := proj.toPointWorldPx g.point_coord controller_zoom
    if area_px point_px then
      (true, [Event.geometryClicked g])
    else
      (false, [])
  else
    (false, [])

/-- The painter primitives `GeometryPoint::draw` issues, in order. -/
inductive CanvasCall where
  | drawPixmap (target_rect : QRectF) (pixmap : QPixmap)
  | setPen (pen : QPen)
  | drawPoint (point : PointWorldPx)
  | drawText (point : PointWorldPx) (text : String)
deriving DecidableEq, Repr

/-- The backbuffer rectangle argument of `draw`, carried as the two Qt
`QRectF` capabilities the code consumes: `intersects` on a rectangle and
`contains` on a point (external Qt implementations). -/
structure BackbufferRect where
  intersects : QRectF → Bool
  contains : PointWorldPx → Bool

/-- The conditional metadata-label draw shared by both branches of
`GeometryPoint::draw` (lines 247–252 and 270–275): when
`controller_zoom >= m_metadata_displayed_zoom_minimum` and the displayed
metadata value is non-null, draw its string form offset by
`(+offset, -offset)` from the given anchor point. -/
def metadataLabelCalls (g : GeometryPoint) (anchor : PointWorldPx) (controller_zoom : ℤ) :
    List CanvasCall :=
  match g.metadata_displayed_value with
  | some text =>
    if controller_zoom ≥ g.metadata_displayed_zoom_minimum then
      [CanvasCall.drawText
        ⟨anchor.x + g.metadata_displayed_alignment_offset_px,
          anchor.y - g.metadata_displayed_alignment_offset_px⟩ text]
    else []
  | none => []

/-- The else-branch of `GeometryPoint::draw` (lines 255–277): draw the
anchor as a point with the current pen when it lies in the backbuffer
rectangle, followed by the conditional metadata label offset from the
point itself. -/
def drawPointFallback (g : GeometryPoint) (proj : Projection)
    (backbuffer_rect_px : BackbufferRect) (controller_zoom : ℤ) : List CanvasCall :=
  let point_px := proj.toPointWorldPx g.point_coord controller_zoom
  if backbuffer_rect_px.contains point_px then
    CanvasCall.setPen g.pen :: CanvasCall.drawPoint point_px ::
      metadataLabelCalls g point_px controller_zoom
  else []

/-- `GeometryPoint::draw` (lines 224–279): nothing when not visible;
with a non-null, non-empty pixmap draw it into the aligned rectangle
when that rectangle intersects the backbuffer, then the conditional
label offset from the rectangle's top-right corner; otherwise fall back
to drawing the anchor point. -/
def draw (g : GeometryPoint) (proj : Projection) (backbuffer_rect_px : BackbufferRect)
    (controller_zoom : ℤ) : List CanvasCall :=
  if isVisible g controller_zoom then
    match g.pixmap with
    | some pix =>
      if pix.size.isEmpty = false then
        let point_px := proj.toPointWorldPx g.point_coord controller_zoom
        let pixmap_size_px := calculateGeometrySizePx g controller_zoom
        let top_left := calculateTopLeftPoint point_px g.alignment_type pixmap_size_px
        let pixmap_rect : QRectF :=
          ⟨top_left.x, top_left.y, pixmap_size_px.width, pixmap_size_px.height⟩
        if backbuffer_rect_px.intersects pixmap_rect then
          CanvasCall.drawPixmap pixmap_rect pix ::
            metadataLabelCalls g pixmap_rect.topRight controller_zoom
        else []
      else drawPointFallback g proj backbuffer_rect_px controller_zoom
    | none => drawPointFallback g proj backbuffer_rect_px controller_zoom
  else []

end qmapcontrol


namespace qmapcontrol

/-! ## Concrete instances used to evaluate the theorems -/

/-- A geometry with a 32×32 pixmap, `base_zoom = 10` and no clamps. -/
def gSample : GeometryPoint :=
  { zoom_minimum := 0, zoom_maximum := 17, pen := ⟨0⟩,
    metadata_displayed_zoom_minimum := 10, metadata_displayed_value := none,
    metadata_displayed_alignment_offset_px := 5,
    point_coord := ⟨0, 0⟩, pixmap := some ⟨⟨32, 32⟩⟩,
    alignment_type := .Middle, base_zoom := 10, base_size_px := ⟨32, 32⟩,
    draw_minimum_px := ⟨-1, -1⟩, draw_maximum_px := ⟨-1, -1⟩ }

/-- A geometry with a 100×100 pixmap, `base_zoom = 10` and a (20,20)
minimum draw size. -/
def gClamp : GeometryPoint :=
  { gSample with
    pixmap := some (QPixmap.mk ⟨100, 100⟩),
    base_size_px := ⟨100, 100⟩,
    draw_minimum_px := ⟨20, 20⟩ }

/-- `gClamp` without its minimum draw size, exposing the unclamped
value. -/
def gClampNoMin : GeometryPoint :=
  { gClamp with draw_minimum_px := ⟨-1, -1⟩ }

/-- `gSample` with `base_zoom` left at its unset `-1` sentinel. -/
def gUnset : GeometryPoint :=
  { gSample with base_zoom := -1 }

/-- A trivial projection instance for evaluating the theorems. -/
def projId : Projection :=
  ⟨fun c _ => ⟨c.x, c.y⟩, fun p _ => ⟨p.x, p.y⟩⟩

/-- A hit-test area containing every pixel point. -/
def areaAll : PointWorldPx → Bool := fun _ => true

/-- A hit-test area containing no pixel point. -/
def areaNone : PointWorldPx → Bool := fun _ => false

/-- A backbuffer rectangle intersecting/containing everything. -/
def bbAll : BackbufferRect := ⟨fun _ => true, fun _ => true⟩

/-! ## Claim theorems -/

/-- C1 counterexample: with base_zoom = 10 and base_size = (32,32), the
code's `calculateGeometrySizePx` yields (64,64) at zoom 11 — not the
(16,16) the claim states (the claim's example values for zoom 11 and
zoom 9 are swapped relative to its own formula
`base_size / 2^(base_zoom - zoom)`). -/
theorem calcSize_zoom11_not_16 :
    calculateGeometrySizePx gSample 11 = ⟨64, 64⟩ ∧
      (⟨64, 64⟩ : QSizeF) ≠ ⟨16, 16⟩ := by
  constructor
  · norm_num [gSample, calculateGeometrySizePx, QSize.isEmpty]
  · decide

/-- C1 amended: with a non-empty 32×32 image and base_zoom = 10,
`calculateGeometrySizePx` returns (32,32) at zoom 10, (64,64) at
zoom 11 and (16,16) at zoom 9, i.e. `base_size / 2^(base_zoom - zoom)`
per component. -/
theorem calcSize_base_zoom_scaling :
    calculateGeometrySizePx gSample 10 = ⟨32, 32⟩ ∧
    calculateGeometrySizePx gSample 11 = ⟨64, 64⟩ ∧
    calculateGeometrySizePx gSample 9 = ⟨16, 16⟩ := by
  refine ⟨?_, ?_, ?_⟩ <;> norm_num [gSample, calculateGeometrySizePx, QSize.isEmpty]

/-- C2 counterexample: with base_size = (100,100), base_zoom = 10 and
minimum draw size (20,20), `calculateGeometrySizePx` at zoom 15 yields
(3200,3200) — the zoom difference is 10 − 15 = −5, so the code divides
by 2^(−5), i.e. multiplies by 32; the result is not the claimed
(20,20) and the minimum clamp plays no part. -/
theorem calcSize_zoom15_not_clamped :
    calculateGeometrySizePx gClamp 15 = ⟨3200, 3200⟩ ∧
      (⟨3200, 3200⟩ : QSizeF) ≠ ⟨20, 20⟩ := by
  constructor
  · norm_num [gClamp, gSample, calculateGeometrySizePx, QSize.isEmpty]
  · decide

/-- C2 amended: with base_size = (100,100), base_zoom = 10 and minimum
draw size (20,20), it is at zoom 5 (diff = +5) that the unclamped value
is 100/32 = 25/8 = 3.125 per component, which the minimum clamp raises
to the final result (20,20); at zoom 15 the value is 3200 per component
and the clamp leaves it unchanged. -/
theorem calcSize_minimum_clamp :
    calculateGeometrySizePx gClampNoMin 5 = ⟨25/8, 25/8⟩ ∧
    calculateGeometrySizePx gClamp 5 = ⟨20, 20⟩ := by
  constructor <;>
    norm_num [gClampNoMin, gClamp, gSample, calculateGeometrySizePx, QSize.isEmpty]

/-- C6: with `base_zoom` at its unset `-1` sentinel and a non-null,
non-empty pixmap, `calculateGeometrySizePx` returns the pixmap's base
size at every queried zoom; the scaling branch and with it both min/max
clamps are skipped regardless of how the clamps are configured. -/
theorem calcSize_base_zoom_unset (g : GeometryPoint) (pix : QPixmap) (zoom : ℤ)
    (hp : g.pixmap = some pix) (he : pix.size.isEmpty = false)
    (hz : g.base_zoom = -1) :
    calculateGeometrySizePx g zoom = ⟨(pix.size.width : ℚ), (pix.size.height : ℚ)⟩ := by
  simp [calculateGeometrySizePx, hp, he, hz]

/-- C6 witness: `gUnset` (32×32 pixmap, base_zoom = −1) is sized (32,32)
at zoom 0 and at zoom 20. -/
theorem calcSize_base_zoom_unset_witness :
    calculateGeometrySizePx gUnset 0 = ⟨32, 32⟩ ∧
    calculateGeometrySizePx gUnset 20 = ⟨32, 32⟩ :=
  ⟨calcSize_base_zoom_unset gUnset ⟨⟨32, 32⟩⟩ 0 rfl rfl rfl,
   calcSize_base_zoom_unset gUnset ⟨⟨32, 32⟩⟩ 20 rfl rfl rfl⟩

/-- C9: the scaling branch requires `m_base_zoom > 0`, so every
non-positive base_zoom behaves as unset: the size is the pixmap's base
size at every queried zoom and the min/max clamps are never applied; in
particular this holds after `setBaseZoom(0)`. -/
theorem calcSize_nonpositive_base_zoom (g : GeometryPoint) (pix : QPixmap) (zoom : ℤ)
    (hp : g.pixmap = some pix) (he : pix.size.isEmpty = false) :
    (g.base_zoom ≤ 0 →
      calculateGeometrySizePx g zoom = ⟨(pix.size.width : ℚ), (pix.size.height : ℚ)⟩) ∧
    calculateGeometrySizePx (setBaseZoom g 0).1 zoom =
      ⟨(pix.size.width : ℚ), (pix.size.height : ℚ)⟩ := by
  constructor
  · intro hz
    have hgt : ¬ (g.base_zoom > 0) := by omega
    simp [calculateGeometrySizePx, hp, he, hgt]
  · simp [setBaseZoom, calculateGeometrySizePx, hp, he]

/-- C9 witness: after `setBaseZoom(0)` on a 32×32-image geometry whose
minimum draw size is set to (40,40), the size at zoom 20 is still the
base (32,32) — the clamp is not applied. -/
theorem calcSize_nonpositive_base_zoom_witness :
    calculateGeometrySizePx
      (setBaseZoom { gSample with draw_minimum_px := ⟨40, 40⟩ } 0).1 20 = ⟨32, 32⟩ :=
  (calcSize_nonpositive_base_zoom { gSample with draw_minimum_px := ⟨40, 40⟩ }
    ⟨⟨32, 32⟩⟩ 20 rfl rfl).2

/-- C3: `touches` returns false and emits nothing when the geometry is
not visible at the zoom; when visible it returns true with exactly one
`geometryClicked` notification iff the pixel-space area contains the
projected anchor pixel, and false with no notification otherwise — the
image's rendered footprint never enters the test. -/
theorem touches_anchor_containment (g : GeometryPoint) (proj : Projection)
    (area_px : PointWorldPx → Bool) (controller_zoom : ℤ) :
    (isVisible g controller_zoom = false →
      touches g proj area_px controller_zoom = (false, [])) ∧
    (isVisible g controller_zoom = true →
      (area_px (proj.toPointWorldPx g.point_coord controller_zoom) = true →
        touches g proj area_px controller_zoom = (true, [Event.geometryClicked g])) ∧
      (area_px (proj.toPointWorldPx g.point_coord controller_zoom) = false →
        touches g proj area_px controller_zoom = (false, []))) := by
  constructor
  · intro h
    simp [touches, h]
  · intro h
    constructor
    · intro ha
      simp [touches, h, ha]
    · intro ha
      simp [touches, h, ha]

/-- C3 witness: at zoom 5 `gSample` is visible; an area containing every
pixel yields a hit with one `geometryClicked`, an area containing none
yields a miss with no notification, and at zoom 18 (not visible) the
result is false with no notification. -/
theorem touches_anchor_containment_witness :
    touches gSample projId areaAll 5 = (true, [Event.geometryClicked gSample]) ∧
    touches gSample projId areaNone 5 = (false, []) ∧
    touches gSample projId areaAll 18 = (false, []) :=
  ⟨((touches_anchor_containment gSample projId areaAll 5).2 rfl).1 rfl,
   ((touches_anchor_containment gSample projId areaNone 5).2 rfl).2 rfl,
   (touches_anchor_containment gSample projId areaAll 18).1 rfl⟩

/-- C4: `setCoord` with a value equal to the current coordinate leaves
the state unchanged and emits nothing; with a different value it updates
the coordinate and emits exactly `requestRedraw` then
`positionChanged(this)`, in that order; consequently a second call with
the same value emits nothing. -/
theorem setCoord_noop_or_two_events (g : GeometryPoint) (point : PointWorldCoord) :
    (point = g.point_coord → setCoord g point = (g, [])) ∧
    (point ≠ g.point_coord →
      setCoord g point =
        ({ g with point_coord := point },
          [Event.requestRedraw, Event.positionChanged { g with point_coord := point }])) ∧
    (setCoord (setCoord g point).1 point).2 = [] := by
  refine ⟨fun h => ?_, fun h => ?_, ?_⟩
  · simp [setCoord, h]
  · have h2 : ¬ g.point_coord = point := fun hc => h hc.symm
    simp [setCoord, h2]
  · by_cases h : g.point_coord = point
    · simp [setCoord, h]
    · simp [setCoord, h]

/-- C4 witness: moving `gSample` to (3,4) emits redraw then
position-changed; repeating the same `setCoord` emits nothing. -/
theorem setCoord_noop_or_two_events_witness :
    setCoord gSample ⟨3, 4⟩ =
      ({ gSample with point_coord := ⟨3, 4⟩ },
        [Event.requestRedraw,
          Event.positionChanged { gSample with point_coord := ⟨3, 4⟩ }]) ∧
    (setCoord (setCoord gSample ⟨3, 4⟩).1 ⟨3, 4⟩).2 = [] :=
  ⟨(setCoord_noop_or_two_events gSample ⟨3, 4⟩).2.1 (by decide),
   (setCoord_noop_or_two_events gSample ⟨3, 4⟩).2.2⟩

/-- C5: when the geometry is not visible at the zoom, `draw` issues no
painter calls at all — no drawPixmap, drawPoint, setPen or drawText —
whatever the configured image, pen and metadata state. -/
theorem draw_invisible_no_calls (g : GeometryPoint) (proj : Projection)
    (backbuffer_rect_px : BackbufferRect) (controller_zoom : ℤ)
    (h : isVisible g controller_zoom = false) :
    draw g proj backbuffer_rect_px controller_zoom = [] := by
  simp [draw, h]

/-- C5 witness: `gSample` is not visible at zoom 18 (its maximum is 17)
and `draw` there issues no calls, even against a backbuffer that
intersects and contains everything. -/
theorem draw_invisible_no_calls_witness :
    isVisible gSample 18 = false ∧ draw gSample projId bbAll 18 = [] :=
  ⟨rfl, draw_invisible_no_calls gSample projId bbAll 18 rfl⟩

/-- C7: `boundingBox(zoom)` is exactly the rectangle whose top-left is
the world-coordinate conversion of the aligned top-left pixel (anchor
pixel offset by the alignment for the zoom-scaled size) and whose
bottom-right is the conversion of top-left + (width, height). -/
theorem boundingBox_composition (g : GeometryPoint) (proj : Projection)
    (controller_zoom : ℤ) :
    boundingBox g proj controller_zoom =
      { top_left :=
          proj.toPointWorldCoord
            (calculateTopLeftPoint (proj.toPointWorldPx g.point_coord controller_zoom)
              g.alignment_type (calculateGeometrySizePx g controller_zoom)) controller_zoom,
        bottom_right :=
          proj.toPointWorldCoord
            ⟨(calculateTopLeftPoint (proj.toPointWorldPx g.point_coord controller_zoom)
                g.alignment_type (calculateGeometrySizePx g controller_zoom)).x +
                (calculateGeometrySizePx g controller_zoom).width,
              (calculateTopLeftPoint (proj.toPointWorldPx g.point_coord controller_zoom)
                g.alignment_type (calculateGeometrySizePx g controller_zoom)).y +
                (calculateGeometrySizePx g controller_zoom).height⟩ controller_zoom } :=
  rfl

/-- C8: `setPixmap` stores the supplied (possibly null) image and emits
exactly one redraw request; a non-null image recaptures `base_size_px`
from its size, a null image leaves `base_size_px` untouched and is a
valid state in which a visible `draw` takes the draw-as-point fallback
branch. -/
theorem setPixmap_replaces_and_redraws (g : GeometryPoint) (pm : Option QPixmap) :
    (setPixmap g pm).1.pixmap = pm ∧
    (setPixmap g pm).2 = [Event.requestRedraw] ∧
    (∀ p, pm = some p → (setPixmap g pm).1.base_size_px = p.size) ∧
    (pm = none → (setPixmap g pm).1.base_size_px = g.base_size_px) ∧
    (pm = none → ∀ (proj : Projection) (bb : BackbufferRect) (zoom : ℤ),
      isVisible (setPixmap g pm).1 zoom = true →
      draw (setPixmap g pm).1 proj bb zoom =
        drawPointFallback (setPixmap g pm).1 proj bb zoom) := by
  refine ⟨?_, ?_, ?_, ?_, ?_⟩
  · cases pm <;> simp [setPixmap]
  · cases pm <;> simp [setPixmap]
  · rintro p rfl
    simp [setPixmap]
  · rintro rfl
    simp [setPixmap]
  · rintro rfl proj bb zoom h
    simp only [setPixmap] at h ⊢
    simp [draw, h]

/-- C8 witness: giving `gSample` a 7×9 image recaptures the base size as
(7,9) with one redraw request; clearing the image to null keeps the old
base size, emits one redraw request, and a subsequent visible `draw`
takes the point-fallback branch (setPen then drawPoint, no
drawPixmap). -/
theorem setPixmap_replaces_and_redraws_witness :
    (setPixmap gSample (some ⟨⟨7, 9⟩⟩)).1.base_size_px = ⟨7, 9⟩ ∧
    (setPixmap gSample none).2 = [Event.requestRedraw] ∧
    (setPixmap gSample none).1.base_size_px = ⟨32, 32⟩ ∧
    draw (setPixmap gSample none).1 projId bbAll 5 =
      drawPointFallback (setPixmap gSample none).1 projId bbAll 5 :=
  ⟨(setPixmap_replaces_and_redraws gSample (some ⟨⟨7, 9⟩⟩)).2.2.1 ⟨⟨7, 9⟩⟩ rfl,
   (setPixmap_replaces_and_redraws gSample none).2.1,
   (setPixmap_replaces_and_redraws gSample none).2.2.2.1 rfl,
   (setPixmap_replaces_and_redraws gSample none).2.2.2.2 rfl projId bbAll 5 rfl⟩

/-- C10: `setAlignmentType`, `setBaseZoom`, `setDrawMinimumPx` and
`setDrawMaximumPx` each emit no notification and produce exactly the
input state with only their own field replaced — coordinate, image,
base size and every other attribute unchanged. -/
theorem plain_setters_silent (g : GeometryPoint) (alignment_type : AlignmentType)
    (zoom : ℤ) (size_min size_max : QSizeF) :
    setAlignmentType g alignment_type = ({ g with alignment_type := alignment_type }, []) ∧
    setBaseZoom g zoom = ({ g with base_zoom := zoom }, []) ∧
    setDrawMinimumPx g size_min = ({ g with draw_minimum_px := size_min }, []) ∧
    setDrawMaximumPx g size_max = ({ g with draw_maximum_px := size_max }, []) :=
  ⟨rfl, rfl, rfl, rfl⟩

end qmapcontrol
